import Mathlib

/-!
Shallow embedding of `ocr.py` (class `CVExtractor`): a batch pipeline that
extracts structured CV data from files via an external inference service.

Python strings are modelled as `List Char`; bytes as `List Nat`; the external
collaborators (file system listing, file contents, the inference service, the
stdlib JSON decoder) are oracle fields of an environment record `Env`.
Console prints and file writes are recorded as an event trace.
-/

/-- Python `str` modelled as a list of characters. -/
abbrev Str := List Char

/-- Turn a Lean string literal into the `List Char` model. -/
def str (s : String) : Str := s.data

/-- The whitespace characters removed by Python `str.strip()` (ASCII range:
space, tab, newline, carriage return, vertical tab, form feed). -/
def pyIsSpace (c : Char) : Bool :=
  c = ' ' || c = '\t' || c = '\n' || c = '\x0d' || c = '\x0b' || c = '\x0c'

/-- Leading-whitespace removal, the left half of Python `str.strip()`. -/
def stripStart (s : Str) : Str := s.dropWhile pyIsSpace

/-- Trailing-whitespace removal, the right half of Python `str.strip()`. -/
def stripEnd (s : Str) : Str := (s.reverse.dropWhile pyIsSpace).reverse

/-- Python `str.strip()`: remove leading and trailing whitespace. -/
def pyStrip (s : Str) : Str := stripEnd (stripStart s)

/-- Python `str.startswith(p)`. -/
def startsWithS (p s : Str) : Bool := decide (s.take p.length = p)

/-- Python `str.endswith(p)`. -/
def endsWithS (p s : Str) : Bool := startsWithS p.reverse s.reverse

/-- Python slicing `s[n:]`. -/
def dropLeftS (n : Nat) (s : Str) : Str := s.drop n

/-- Python slicing `s[:-n]` (for `n ≤ len s`; shorter strings yield `[]`,
matching Python). -/
def dropRightS (n : Nat) (s : Str) : Str := s.take (s.length - n)

/-- Split a path on `/` separators (POSIX separator assumed). -/
def splitSlash (s : Str) : List Str :=
  s.foldr (fun c acc =>
    match acc with
    | [] => if c = '/' then [[], []] else [[c]]
    | a :: rest => if c = '/' then [] :: a :: rest else (c :: a) :: rest) [[]]

/-- Model of `pathlib.PurePath.name`: the final path component, with empty, `.`
components dropped (as pathlib's parser does). -/
def pathName (p : Str) : Str :=
  (((splitSlash p).filter (fun c => !(c = [] || c = ['.']))).getLast?).getD []

/-- Index of the last `.` in a name, if any (Python `str.rfind('.')`). -/
def rfindDot (name : Str) : Option Nat :=
  (List.range name.length).reverse.find? (fun i => name.getD i ' ' = '.')

/-- Model of `pathlib.PurePath.suffix`: the extension of the final component, `.`
included; empty when the last dot is at position 0 (hidden files) or is the
final character. -/
def pathSuffix (p : Str) : Str :=
  let name := pathName p
  match rfindDot name with
  | some i => if 0 < i && i < name.length - 1 then name.drop i else []
  | none => []

/-- Model of `pathlib.PurePath.stem`: the final component without its suffix. -/
def pathStem (p : Str) : Str :=
  let name := pathName p
  match rfindDot name with
  | some i => if 0 < i && i < name.length - 1 then name.take i else name
  | none => name

/-- Python `str.lower()` (ASCII case folding, which is all that file
extensions exercise). -/
def lowerS (s : Str) : Str := s.map Char.toLower

/-- Model of `CVExtractor.get_mime_type`: look the lower-cased extension up in the
literal dict of `ocr.py`, defaulting to `image/jpeg`. -/
def get_mime_type (file_path : Str) : Str :=
  let ext := lowerS (pathSuffix file_path)
  if ext = str ".pdf" then str "application/pdf"
  else if ext = str ".png" then str "image/png"
  else if ext = str ".jpg" then str "image/jpeg"
  else if ext = str ".jpeg" then str "image/jpeg"
  else if ext = str ".gif" then str "image/gif"
  else if ext = str ".webp" then str "image/webp"
  else str "image/jpeg"

/-! ### Markdown fence stripping (ocr.py lines 79–87) -/

/-- The fence-stripping block of `extract_cv_info`: three independent `if`s,
in source order — leading ```` ```json ````, then leading ```` ``` ````, then
trailing ```` ``` ````. -/
def stripCodeFence (t : Str) : Str :=
  let t1 := if startsWithS (str "```json") t then dropLeftS 7 t else t
  let t2 := if startsWithS (str "```") t1 then dropLeftS 3 t1 else t1
  if endsWithS (str "```") t2 then dropRightS 3 t2 else t2

/-- The exact string handed to `json.loads` for a given raw response text:
`response.text.strip()`, fence stripping, then the final `.strip()` at the
`json.loads` call site. -/
def decoderInput (respText : Str) : Str :=
  pyStrip (stripCodeFence (pyStrip respText))

/-! ### Base64 (Python `base64.standard_b64encode`) -/

/-- The standard base64 alphabet. -/
def b64Alphabet : Str :=
  str "ABCDEFGHIJKLMNOPQRSTUVWXYZabcdefghijklmnopqrstuvwxyz0123456789+/"

/-- One base64 digit. -/
def b64CharOf (n : Nat) : Char := b64Alphabet.getD n 'A'

/-- Model of `base64.standard_b64encode` over a byte list (each byte `< 256`). -/
def b64encode : List Nat → Str
  | [] => []
  | [a] => [b64CharOf (a / 4), b64CharOf (a % 4 * 16), '=', '=']
  | [a, b] => [b64CharOf (a / 4), b64CharOf (a % 4 * 16 + b / 16),
               b64CharOf (b % 16 * 4), '=']
  | a :: b :: c :: rest =>
      b64CharOf (a / 4) :: b64CharOf (a % 4 * 16 + b / 16) ::
      b64CharOf (b % 16 * 4 + c / 64) :: b64CharOf (c % 64) :: b64encode rest

/-! ### JSON values and Python-style serialization

`json.loads` returns arbitrarily nested data; `json.dump(cv_info, f, indent=2,
ensure_ascii=False)` re-serializes it. `Json` models the Python value space
(numbers restricted to integers; object key order is insertion order, as in
Python dicts), and the dump functions reproduce CPython's `json.dump` output
for `indent=2, ensure_ascii=False`. -/

inductive Json where
  | null
  | bool (b : Bool)
  | num (n : Int)
  | jstr (s : Str)
  | arr (xs : List Json)
  | obj (kvs : List (Str × Json))

/-- Lowercase hex digit. -/
def hexDigit (n : Nat) : Char :=
  if n < 10 then Char.ofNat (48 + n) else Char.ofNat (87 + n)

/-- Four lowercase hex digits, as in Python's `\uXXXX` escapes. -/
def hex4 (n : Nat) : Str :=
  [hexDigit (n / 4096 % 16), hexDigit (n / 256 % 16),
   hexDigit (n / 16 % 16), hexDigit (n % 16)]

/-- Escape one character the way `json.dump` with `ensure_ascii=False` does:
backslash, quote and named control escapes; `\uXXXX` for other control
characters; every other character — non-ASCII included — passes through
literally. -/
def escChar (c : Char) : Str :=
  if c = '\\' then str "\\\\"
  else if c = '"' then str "\\\""
  else if c = '\n' then str "\\n"
  else if c = '\t' then str "\\t"
  else if c = '\x0d' then str "\\r"
  else if c = '\x08' then str "\\b"
  else if c = '\x0c' then str "\\f"
  else if c.toNat < 32 then str "\\u" ++ hex4 c.toNat
  else [c]

/-- Serialize a JSON string value. -/
def dumpJStr (s : Str) : Str := '"' :: (s.map escChar).flatten ++ ['"']

/-- Serialize an integer in decimal. -/
def dumpInt (n : Int) : Str :=
  if n < 0 then '-' :: Nat.toDigits 10 n.natAbs else Nat.toDigits 10 n.natAbs

/-- Indentation for nesting level `lvl` under `indent=2`: `2 * lvl` spaces. -/
def pad (lvl : Nat) : Str := List.replicate (2 * lvl) ' '

mutual

/-- CPython `json.dump` output for `indent=2, ensure_ascii=False`: containers
open, indent each element by two more spaces, separate with `\x2c\n`, and
close on a line indented to the container's own level; empty containers
collapse. -/
def dumpVal (lvl : Nat) : Json → Str
  | .null => str "null"
  | .bool true => str "true"
  | .bool false => str "false"
  | .num n => dumpInt n
  | .jstr s => dumpJStr s
  | .arr [] => str "[]"
  | .arr (x :: xs) =>
      str "[\n" ++ dumpItems (lvl + 1) (x :: xs) ++ '\n' :: pad lvl ++ str "]"
  | .obj [] => str "\x7b\x7d"
  | .obj (kv :: kvs) =>
      str "\x7b\n" ++ dumpFields (lvl + 1) (kv :: kvs) ++ '\n' :: pad lvl ++ str "\x7d"

/-- Array elements, each on its own indented line, comma-separated. -/
def dumpItems (lvl : Nat) : List Json → Str
  | [] => []
  | [x] => pad lvl ++ dumpVal lvl x
  | x :: y :: xs => pad lvl ++ dumpVal lvl x ++ str ",\n" ++ dumpItems lvl (y :: xs)

/-- Object entries `"key": value`, each on its own indented line. -/
def dumpFields (lvl : Nat) : List (Str × Json) → Str
  | [] => []
  | [(k, v)] => pad lvl ++ dumpJStr k ++ str ": " ++ dumpVal lvl v
  | (k, v) :: kv :: kvs =>
      pad lvl ++ dumpJStr k ++ str ": " ++ dumpVal lvl v ++ str ",\n" ++
      dumpFields lvl (kv :: kvs)

end

/-- Model of the call `json.dump(cv_info, f, indent=2, ensure_ascii=False)`:
serialization of a
whole record, starting at nesting level 0. -/
def pyJsonDump (j : Json) : Str := dumpVal 0 j

/-! ### The environment: external collaborators as oracles -/

/-- Model of `os.path.join` for POSIX paths, two arguments. -/
def osJoin (a b : Str) : Str :=
  if b.take 1 = ['/'] then b
  else if a = [] then b
  else if a.getLast? = some '/' then a ++ b
  else a ++ '/' :: b

/-- The single inference request `extract_cv_info` assembles: fixed model
identifier, prompt text, and the inline data part (mime type + base64 data). -/
structure ApiRequest where
  model : Str
  prompt : Str
  mime_type : Str
  data : Str
deriving DecidableEq

/-- The exceptions `extract_cv_info` can raise: the two explicit
`FileNotFoundError`s, an error surfaced by the inference call, and a
`json.loads` decode failure. -/
inductive ExtractErr where
  | fileNotFound (path : Str)
  | promptNotFound (path : Str)
  | apiError (msg : Str)
  | jsonDecodeError
deriving DecidableEq

/-- Console messages printed by the pipeline. -/
inductive Msg where
  | noFiles (folder : Str)
  | found (n : Nat)
  | processing (name : Str)
  | saved (path : Str)
  | error (e : ExtractErr)
deriving DecidableEq

/-- Observable events of one run: file reads, the prompt read, inference
calls, console prints, output-file writes. -/
inductive Ev where
  | readFile (path : Str)
  | readPrompt
  | apiCall (req : ApiRequest)
  | printed (m : Msg)
  | wrote (path : Str) (content : Str)

/-- The world a `CVExtractor` run interacts with: its configuration fields
and one oracle per external collaborator (`os.listdir`, `os.path.isfile`,
`os.path.exists`, file contents, the inference service, `json.loads`). -/
structure Env where
  input_folder : Str
  output_folder : Str
  prompt_file : Str
  listing : List Str
  isFile : Str → Bool
  pathExists : Str → Bool
  promptRaw : Str
  fileBytes : Str → List Nat
  api : ApiRequest → Except Str Str
  jsonLoads : Str → Option Json

/-- Model of `CVExtractor.load_prompt`: check existence, read, `.strip()`. -/
def load_prompt (env : Env) : Except ExtractErr Str :=
  if env.pathExists env.prompt_file then Except.ok (pyStrip env.promptRaw)
  else Except.error (ExtractErr.promptNotFound env.prompt_file)

/-- Lines 77–88 of `ocr.py`: strip the response text, remove markdown code
fences, strip again, and `json.loads` the remainder; a decode failure raises
(modelled as the decode-error value). -/
def decode_response (env : Env) (respText : Str) : Except ExtractErr Json :=
  match env.jsonLoads (decoderInput respText) with
  | none => Except.error ExtractErr.jsonDecodeError
  | some cv_data => Except.ok cv_data

/-- The inference call of `extract_cv_info` and the handling of its textual
response. The trace is the same in every branch — by the time the service
answers or fails, the file was read, the prompt was read, and the call was
made. -/
def call_api (env : Env) (file_path : Str) (req : ApiRequest) :
    Except ExtractErr Json × List Ev :=
  match env.api req with
  | Except.error msg =>
      (Except.error (ExtractErr.apiError msg),
       [Ev.readFile file_path, Ev.readPrompt, Ev.apiCall req])
  | Except.ok respText =>
      (decode_response env respText,
       [Ev.readFile file_path, Ev.readPrompt, Ev.apiCall req])

/-- Model of `CVExtractor.extract_cv_info`, returning the result with the
trace of external events in source order: existence check; read + base64
encode; prompt load; inference call; strip, fence-strip, strip; decode. -/
def extract_cv_info (env : Env) (file_path : Str) :
    Except ExtractErr Json × List Ev :=
  if env.pathExists file_path then
    let mime_type := get_mime_type file_path
    let file_data := b64encode (env.fileBytes file_path)
    match load_prompt env with
    | Except.error e => (Except.error e, [Ev.readFile file_path])
    | Except.ok prompt =>
        call_api env file_path
          { model := str "gemini-2.0-flash", prompt := prompt,
            mime_type := mime_type, data := file_data }
  else (Except.error (ExtractErr.fileNotFound file_path), [])

/-- The list comprehension of `process_all_cvs`: entries of the input folder
that are regular files. -/
def cv_files (env : Env) : List Str :=
  env.listing.filter (fun f => env.isFile (osJoin env.input_folder f))

/-- The output filename derived from an input filename:
`Path(cv_filename).stem + "_extracted.json"`. -/
def output_filename (cv_filename : Str) : Str :=
  pathStem cv_filename ++ str "_extracted.json"

/-- The full derived output path for an input filename. -/
def outputPathFor (env : Env) (cv_filename : Str) : Str :=
  osJoin env.output_folder (output_filename cv_filename)

/-- One iteration of the batch loop: print `Processing`, try
`extract_cv_info`; on success write the serialized record to the derived
output path and print the success line; on any exception print the error
line and continue. -/
def processOne (env : Env) (cv_filename : Str) : List Ev :=
  let cv_file := osJoin env.input_folder cv_filename
  Ev.printed (Msg.processing cv_filename) ::
    match extract_cv_info env cv_file with
    | (Except.ok cv_info, evs) =>
        evs ++ [Ev.wrote (outputPathFor env cv_filename) (pyJsonDump cv_info),
                Ev.printed (Msg.saved (outputPathFor env cv_filename))]
    | (Except.error e, evs) => evs ++ [Ev.printed (Msg.error e)]

/-- Model of `CVExtractor.process_all_cvs`: list regular files; if none, print the
`No files found` line; otherwise print the count and run the per-file loop. -/
def process_all_cvs (env : Env) : List Ev :=
  let files := cv_files env
  if files.isEmpty then [Ev.printed (Msg.noFiles env.input_folder)]
  else Ev.printed (Msg.found files.length) :: files.flatMap (processOne env)

/-! ### Trace observations -/

/-- The output-file writes in a trace, in order: (path, content). -/
def writesIn (t : List Ev) : List (Str × Str) :=
  t.filterMap (fun e => match e with
    | Ev.wrote p c => some (p, c)
    | _ => none)

/-- The error lines printed in a trace, in order. -/
def errorsIn (t : List Ev) : List ExtractErr :=
  t.filterMap (fun e => match e with
    | Ev.printed (Msg.error e) => some e
    | _ => none)

/-- The inference calls made in a trace, in order. -/
def apiCallsIn (t : List Ev) : List ApiRequest :=
  t.filterMap (fun e => match e with
    | Ev.apiCall r => some r
    | _ => none)

/-- The filenames whose processing started, in order (`Processing:` lines,
printed once per `extract_cv_info` call). -/
def processingIn (t : List Ev) : List Str :=
  t.filterMap (fun e => match e with
    | Ev.printed (Msg.processing n) => some n
    | _ => none)

/-- The `No files found` lines in a trace. -/
def noFilesIn (t : List Ev) : List Str :=
  t.filterMap (fun e => match e with
    | Ev.printed (Msg.noFiles f) => some f
    | _ => none)

/-- The final content of the file at `p` after replaying a trace's writes in
order (later writes overwrite earlier ones). -/
def finalFS (t : List Ev) (p : Str) : Option Str :=
  ((writesIn t).reverse.find? (fun pc => pc.1 = p)).map (fun pc => pc.2)

/-! ### Spec-side definitions (for refinement claims)

These two definitions follow the specification's words, to be compared with
the definitions taken from the source. -/

/-- Remove a leading marker at most once (spec §4.3 step g). -/
def removeLeadingMarker (m t : Str) : Str :=
  if startsWithS m t then dropLeftS m.length t else t

/-- Remove a trailing marker at most once (spec §4.3 step g). -/
def removeTrailingMarker (m t : Str) : Str :=
  if endsWithS m t then dropRightS m.length t else t

/-- Fence handling as the spec words it: first the leading structured-data
opener ```` ```json ````, then a leading bare ```` ``` ````, then a trailing
```` ``` ```` — each removed at most once, in that priority order. -/
def stripFencesSpec (t : Str) : Str :=
  removeTrailingMarker (str "```")
    (removeLeadingMarker (str "```")
      (removeLeadingMarker (str "```json") t))

/-- The content-type table as the spec states it (§4.2), as a function of the
case-folded extension: five recognized extensions, `image/jpeg` for anything
else including a missing extension. -/
def mimeTypeSpec (ext : Str) : Str :=
  if ext = str ".pdf" then str "application/pdf"
  else if ext = str ".png" then str "image/png"
  else if ext = str ".jpg" ∨ ext = str ".jpeg" then str "image/jpeg"
  else if ext = str ".gif" then str "image/gif"
  else if ext = str ".webp" then str "image/webp"
  else str "image/jpeg"

/-! ### Concrete environments for witnesses -/

/-- One well-behaved input file; the service answers a bare JSON payload. -/
def envC1 : Env :=
  { input_folder := str "cv_inp", output_folder := str "cv_out",
    prompt_file := str "prompt.txt",
    listing := [str "a.pdf"],
    isFile := fun _ => true, pathExists := fun _ => true,
    promptRaw := str "p", fileBytes := fun _ => [],
    api := fun _ => Except.ok (str "RESP"),
    jsonLoads := fun s => if s = str "RESP" then some (Json.obj []) else none }

/-- Same shape as `envC1`, used by the C2 witness. -/
def envC2 : Env :=
  { input_folder := str "cv_inp", output_folder := str "cv_out",
    prompt_file := str "prompt.txt",
    listing := [str "a.pdf"],
    isFile := fun _ => true, pathExists := fun _ => true,
    promptRaw := str "p", fileBytes := fun _ => [],
    api := fun _ => Except.ok (str "RESP"),
    jsonLoads := fun s => if s = str "RESP" then some (Json.obj []) else none }

/-- The prompt file is missing; the input file exists. -/
def envC6 : Env :=
  { input_folder := str "cv_inp", output_folder := str "cv_out",
    prompt_file := str "prompt.txt",
    listing := [str "a.pdf"],
    isFile := fun _ => true,
    pathExists := fun p => !(p = str "prompt.txt"),
    promptRaw := str "p", fileBytes := fun _ => [],
    api := fun _ => Except.ok (str "RESP"),
    jsonLoads := fun _ => none }

/-- An empty input folder. -/
def envC7 : Env :=
  { input_folder := str "cv_inp", output_folder := str "cv_out",
    prompt_file := str "prompt.txt",
    listing := [],
    isFile := fun _ => true, pathExists := fun _ => true,
    promptRaw := str "p", fileBytes := fun _ => [],
    api := fun _ => Except.ok (str "RESP"),
    jsonLoads := fun _ => none }

/-- Nothing exists on disk. -/
def envC8 : Env :=
  { input_folder := str "cv_inp", output_folder := str "cv_out",
    prompt_file := str "prompt.txt",
    listing := [],
    isFile := fun _ => false, pathExists := fun _ => false,
    promptRaw := str "p", fileBytes := fun _ => [],
    api := fun _ => Except.ok (str "RESP"),
    jsonLoads := fun _ => none }

/-- The record of the spec's §8 scenario. -/
def jC9 : Json :=
  Json.obj [(str "name", Json.jstr (str "Jane Doe")),
            (str "email", Json.jstr (str "jane@example.com"))]

/-- The §8 scenario: `resume.pdf`, a fenced JSON response. -/
def envC9 : Env :=
  { input_folder := str "cv_inp", output_folder := str "cv_out",
    prompt_file := str "prompt.txt",
    listing := [str "resume.pdf"],
    isFile := fun _ => true, pathExists := fun _ => true,
    promptRaw := str "Extract name and email as JSON",
    fileBytes := fun _ => [],
    api := fun _ => Except.ok
      (str "```json\n\x7b\"name\": \"Jane Doe\", \"email\": \"jane@example.com\"\x7d\n```"),
    jsonLoads := fun s =>
      if s = str "\x7b\"name\": \"Jane Doe\", \"email\": \"jane@example.com\"\x7d"
      then some jC9 else none }

/-- Record extracted from `cv.pdf` in the stem-collision scenario. -/
def jC10a : Json := Json.obj [(str "src", Json.jstr (str "pdf"))]

/-- Record extracted from `cv.png` in the stem-collision scenario. -/
def jC10b : Json := Json.obj [(str "src", Json.jstr (str "png"))]

/-- Two distinct input files with the same stem; both extractions succeed
with distinct records. -/
def envC10 : Env :=
  { input_folder := str "cv_inp", output_folder := str "cv_out",
    prompt_file := str "prompt.txt",
    listing := [str "cv.pdf", str "cv.png"],
    isFile := fun _ => true, pathExists := fun _ => true,
    promptRaw := str "p", fileBytes := fun _ => [],
    api := fun req => Except.ok
      (if req.mime_type = str "application/pdf" then str "R1" else str "R2"),
    jsonLoads := fun s =>
      if s = str "R1" then some jC10a
      else if s = str "R2" then some jC10b
      else none }

/-! ### Helper lemmas -/

/-- A `startswith` check for a shorter marker follows from one for a longer
marker that itself starts with the shorter one. -/
theorem startsWithS_trans (q p t : Str) (hqp : startsWithS q p = true)
    (hle : q.length ≤ p.length) (hpt : startsWithS p t = true) :
    startsWithS q t = true := by
  simp only [startsWithS, decide_eq_true_eq] at hqp hpt ⊢
  have h : t.take q.length = (t.take p.length).take q.length := by
    rw [List.take_take, Nat.min_eq_left hle]
  rw [h, hpt, hqp]

theorem stripEnd_eq_rdropWhile (s : Str) :
    stripEnd s = List.rdropWhile pyIsSpace s := rfl

theorem stripStart_eq_dropWhile (s : Str) :
    stripStart s = List.dropWhile pyIsSpace s := rfl

/-- Python `str.strip()` is idempotent. -/
theorem pyStrip_idem (s : Str) : pyStrip (pyStrip s) = pyStrip s := by
  have hu : List.dropWhile pyIsSpace (List.dropWhile pyIsSpace s) =
      List.dropWhile pyIsSpace s := List.dropWhile_idempotent pyIsSpace s
  set u := List.dropWhile pyIsSpace s with hudef
  have key : List.dropWhile pyIsSpace (List.rdropWhile pyIsSpace u) =
      List.rdropWhile pyIsSpace u := by
    rw [List.dropWhile_eq_self_iff]
    intro hl
    have hpre : List.rdropWhile pyIsSpace u <+: u := List.rdropWhile_prefix pyIsSpace u
    have h0 : 0 < u.length := lt_of_lt_of_le hl hpre.length_le
    have hget := hpre.getElem (n := 0) hl
    have hu0 := (List.dropWhile_eq_self_iff.mp hu) h0
    simp only [List.get_eq_getElem] at hu0 ⊢
    rw [hget]
    exact hu0
  have h1 : pyStrip s = List.rdropWhile pyIsSpace u := by
    simp [pyStrip, stripStart_eq_dropWhile, stripEnd_eq_rdropWhile, hudef]
  calc pyStrip (pyStrip s)
      = List.rdropWhile pyIsSpace
          (List.dropWhile pyIsSpace (List.rdropWhile pyIsSpace u)) := by
        rw [h1]; simp [pyStrip, stripStart_eq_dropWhile, stripEnd_eq_rdropWhile]
    _ = List.rdropWhile pyIsSpace (List.rdropWhile pyIsSpace u) := by rw [key]
    _ = List.rdropWhile pyIsSpace u := List.rdropWhile_idempotent pyIsSpace u
    _ = pyStrip s := h1.symm

/-- The trace of `call_api` is the same three events in every branch. -/
theorem call_api_trace (env : Env) (p : Str) (req : ApiRequest) :
    (call_api env p req).2 = [Ev.readFile p, Ev.readPrompt, Ev.apiCall req] := by
  unfold call_api
  split <;> rfl

/-- The trace of `extract_cv_info` holds only file-read, prompt-read and
inference-call events. -/
theorem extract_ev_mem (env : Env) (p : Str) (e : Ev)
    (he : e ∈ (extract_cv_info env p).2) :
    e = Ev.readFile p ∨ e = Ev.readPrompt ∨ ∃ r, e = Ev.apiCall r := by
  unfold extract_cv_info at he
  by_cases hx : env.pathExists p = true
  · rw [if_pos hx] at he
    rcases hlp : load_prompt env with e0 | prompt
    · rw [hlp] at he
      simp only [List.mem_singleton] at he
      exact Or.inl he
    · rw [hlp] at he
      rw [call_api_trace] at he
      simp only [List.mem_cons, List.mem_singleton, List.not_mem_nil,
        or_false] at he
      rcases he with h | h | h
      · exact Or.inl h
      · exact Or.inr (Or.inl h)
      · exact Or.inr (Or.inr ⟨_, h⟩)
  · rw [if_neg hx] at he
    simp at he

/-- The function `extract_cv_info` itself never writes an output file, prints an error
line, prints a `Processing` line, or prints a `No files found` line: those
events belong to the batch driver. -/
theorem extract_obs (env : Env) (p : Str) :
    writesIn (extract_cv_info env p).2 = [] ∧
    errorsIn (extract_cv_info env p).2 = [] ∧
    processingIn (extract_cv_info env p).2 = [] ∧
    noFilesIn (extract_cv_info env p).2 = [] := by
  refine ⟨?_, ?_, ?_, ?_⟩ <;>
  · simp only [writesIn, errorsIn, processingIn, noFilesIn,
      List.filterMap_eq_nil_iff]
    intro a ha
    rcases extract_ev_mem env p a ha with h | h | ⟨r, h⟩ <;> subst h <;> rfl

/-- With the prompt file missing and the input file present, an extraction
attempt fails with the prompt-file error after only the input-file read. -/
theorem extract_no_prompt (env : Env) (p : Str)
    (hp : env.pathExists env.prompt_file = false)
    (hx : env.pathExists p = true) :
    extract_cv_info env p =
      (Except.error (ExtractErr.promptNotFound env.prompt_file),
       [Ev.readFile p]) := by
  unfold extract_cv_info load_prompt
  simp [hp, hx]

/-- Unfolding of one loop iteration when extraction succeeds. -/
theorem processOne_ok (env : Env) (name : Str) (j : Json) (evs : List Ev)
    (h : extract_cv_info env (osJoin env.input_folder name) = (Except.ok j, evs)) :
    processOne env name =
      Ev.printed (Msg.processing name) ::
        (evs ++ [Ev.wrote (outputPathFor env name) (pyJsonDump j),
                 Ev.printed (Msg.saved (outputPathFor env name))]) := by
  simp only [processOne]
  rw [h]

/-- Unfolding of one loop iteration when extraction raises. -/
theorem processOne_err (env : Env) (name : Str) (e : ExtractErr) (evs : List Ev)
    (h : extract_cv_info env (osJoin env.input_folder name) =
      (Except.error e, evs)) :
    processOne env name =
      Ev.printed (Msg.processing name) ::
        (evs ++ [Ev.printed (Msg.error e)]) := by
  simp only [processOne]
  rw [h]

/-- Each iteration prints exactly one `Processing` line, its own. -/
theorem processingIn_processOne (env : Env) (name : Str) :
    processingIn (processOne env name) = [name] := by
  have hobs := (extract_obs env (osJoin env.input_folder name)).2.2.1
  rcases hx : extract_cv_info env (osJoin env.input_folder name) with ⟨r, evs⟩
  rw [hx] at hobs
  cases r with
  | ok j =>
      rw [processOne_ok env name j evs hx]
      simp only [processingIn, List.filterMap_cons, List.filterMap_append] at hobs ⊢
      simp [hobs]
  | error e =>
      rw [processOne_err env name e evs hx]
      simp only [processingIn, List.filterMap_cons, List.filterMap_append] at hobs ⊢
      simp [hobs]

/-- A `filterMap` distributes over `flatMap`. -/
theorem filterMap_flatMap_ev {β : Type} (g : Ev → Option β)
    (f : Str → List Ev) (l : List Str) :
    (l.flatMap f).filterMap g = l.flatMap fun x => (f x).filterMap g := by
  induction l with
  | nil => rfl
  | cons a l ih => simp [List.flatMap_cons, List.filterMap_append, ih]

/-- Structure of a nonempty run. -/
theorem process_all_of_ne (env : Env) (h : cv_files env ≠ []) :
    process_all_cvs env =
      Ev.printed (Msg.found (cv_files env).length) ::
        (cv_files env).flatMap (processOne env) := by
  unfold process_all_cvs
  simp [List.isEmpty_iff, h]

/-- The `Processing` lines of a whole run are exactly the retained files, in
enumeration order — regardless of any per-file outcome. -/
theorem processingIn_run (env : Env) :
    processingIn (process_all_cvs env) = cv_files env := by
  by_cases h : cv_files env = []
  · simp [process_all_cvs, h, processingIn]
  · rw [process_all_of_ne env h]
    simp only [processingIn, List.filterMap_cons]
    rw [filterMap_flatMap_ev]
    have hx : ∀ x, (processOne env x).filterMap (fun e => match e with
        | Ev.printed (Msg.processing n) => some n
        | _ => none) = [x] := fun x => processingIn_processOne env x
    simp only [hx, List.flatMap_singleton']

/-- Sanity check: the classifier on representative concrete paths. -/
theorem mime_sanity :
    get_mime_type (str "cv_inp/resume.PDF") = str "application/pdf" ∧
    get_mime_type (str "cv_inp/photo") = str "image/jpeg" ∧
    get_mime_type (str "a/b.webp") = str "image/webp" := by decide

/-- Sanity check: stem and suffix extraction on edge cases. -/
theorem path_sanity :
    pathStem (str "cv.pdf") = str "cv" ∧
    pathSuffix (str ".bashrc") = [] ∧
    pathStem (str "a.b.c") = str "a.b" := by decide

/-- Sanity check: base64 against RFC test vectors. -/
theorem b64_sanity :
    b64encode [77, 97, 110] = str "TWFu" ∧
    b64encode [77, 97] = str "TWE=" := by decide

/-- Sanity check: the serializer reproduces the spec's §8 scenario output
(two-space indentation) and keeps non-ASCII literal. -/
theorem dump_sanity :
    pyJsonDump jC9 =
      str "\x7b\n  \"name\": \"Jane Doe\",\n  \"email\": \"jane@example.com\"\n\x7d" ∧
    pyJsonDump (Json.jstr (str "é☂")) = str "\"é☂\"" := by decide

/-- In a duplicate-free list, a member occurs exactly once. -/
theorem count_eq_one_of_nodup_mem (l : List Str) (a : Str) (hnd : l.Nodup)
    (h : a ∈ l) : List.count a l = 1 := by
  induction l with
  | nil => cases h
  | cons b t ih =>
      rcases List.mem_cons.mp h with rfl | hmem
      · rw [List.count_cons_self]
        have hnotin : a ∉ t := (List.nodup_cons.mp hnd).1
        rw [List.count_eq_zero.mpr hnotin]
      · have hne : a ≠ b := fun he =>
          (List.nodup_cons.mp hnd).1 (he ▸ hmem)
        rw [List.count_cons_of_ne hne]
        exact ih (List.nodup_cons.mp hnd).2 hmem

/-! ### Claims -/

/-- Claim C3: fence-stripping of the inference response handles exactly the
three marker forms — a leading ```` ```json ```` marker, a leading bare
```` ``` ```` marker, and a trailing ```` ``` ```` marker — each removed at
most once, checked in that priority order, and this is what runs on the
response text before the remaining text is decoded. -/
theorem claim_C3 :
    (∀ t : Str, stripCodeFence t = stripFencesSpec t) ∧
    (∀ s : Str, decoderInput s = pyStrip (stripFencesSpec (pyStrip s))) :=
  ⟨fun _ => rfl, fun _ => rfl⟩

/-- Claim C4: when the whitespace-trimmed response text neither starts nor
ends with a three-backtick marker, fence-stripping passes it to the decoder
unchanged. -/
theorem claim_C4 (s : Str)
    (h1 : startsWithS (str "```") (pyStrip s) = false)
    (h2 : endsWithS (str "```") (pyStrip s) = false) :
    decoderInput s = pyStrip s := by
  have hjson : startsWithS (str "```json") (pyStrip s) = false := by
    by_contra hc
    rw [Bool.not_eq_false] at hc
    have h3 := startsWithS_trans (str "```") (str "```json") (pyStrip s)
      (by decide) (by decide) hc
    rw [h1] at h3
    exact Bool.false_ne_true h3
  have hfence : stripCodeFence (pyStrip s) = pyStrip s := by
    unfold stripCodeFence
    simp only [hjson, h1, h2, Bool.false_eq_true, if_false]
  unfold decoderInput
  rw [hfence, pyStrip_idem]

/-- Witness for C4 at a concrete fence-free response text. -/
theorem claim_C4_witness : decoderInput (str " plain ") = pyStrip (str " plain ") :=
  claim_C4 (str " plain ") (by decide) (by decide)

/-- Claim C5: the MIME classifier is a total, deterministic, pure function of
the case-folded extension, agreeing with the spec's five-entry table and
defaulting to `image/jpeg` for any other (or missing) extension. -/
theorem claim_C5 :
    (∀ p : Str, get_mime_type p = mimeTypeSpec (lowerS (pathSuffix p))) ∧
    (∀ p q : Str, lowerS (pathSuffix p) = lowerS (pathSuffix q) →
      get_mime_type p = get_mime_type q) := by
  have h1 : ∀ p : Str, get_mime_type p = mimeTypeSpec (lowerS (pathSuffix p)) := by
    intro p
    unfold get_mime_type mimeTypeSpec
    by_cases hpdf : lowerS (pathSuffix p) = str ".pdf" <;>
      by_cases hpng : lowerS (pathSuffix p) = str ".png" <;>
        by_cases hjpg : lowerS (pathSuffix p) = str ".jpg" <;>
          by_cases hjpeg : lowerS (pathSuffix p) = str ".jpeg" <;>
            by_cases hgif : lowerS (pathSuffix p) = str ".gif" <;>
              by_cases hwebp : lowerS (pathSuffix p) = str ".webp" <;>
                (simp [hpdf, hpng, hjpg, hjpeg, hgif, hwebp] <;> decide)
  exact ⟨h1, fun p q h => by rw [h1 p, h1 q, h]⟩

/-- Witness for C5: two paths whose extensions agree up to case classify
identically. -/
theorem claim_C5_witness :
    get_mime_type (str "cv_inp/a.PDF") = get_mime_type (str "cv_inp/b.pdf") :=
  claim_C5.2 (str "cv_inp/a.PDF") (str "cv_inp/b.pdf") (by decide)

/-- Claim C7: with no regular files in the input folder, the run is exactly
one `No files found` report — zero writes, zero inference calls — and
terminates normally. -/
theorem claim_C7 (env : Env) (h : cv_files env = []) :
    process_all_cvs env = [Ev.printed (Msg.noFiles env.input_folder)] ∧
    writesIn (process_all_cvs env) = [] ∧
    apiCallsIn (process_all_cvs env) = [] ∧
    noFilesIn (process_all_cvs env) = [env.input_folder] := by
  have h0 : process_all_cvs env = [Ev.printed (Msg.noFiles env.input_folder)] := by
    unfold process_all_cvs
    simp [h]
  refine ⟨h0, ?_, ?_, ?_⟩ <;> rw [h0] <;> rfl

/-- Witness for C7 on the concrete empty-folder environment. -/
theorem claim_C7_witness :
    process_all_cvs envC7 = [Ev.printed (Msg.noFiles envC7.input_folder)] ∧
    writesIn (process_all_cvs envC7) = [] ∧
    apiCallsIn (process_all_cvs envC7) = [] ∧
    noFilesIn (process_all_cvs envC7) = [envC7.input_folder] :=
  claim_C7 envC7 rfl

/-- Claim C8: on a path that does not exist, `extract_cv_info` fails with the
file-not-found error and its trace is empty — no bytes read, no prompt load,
no inference call, no mutation. -/
theorem claim_C8 (env : Env) (p : Str) (h : env.pathExists p = false) :
    extract_cv_info env p = (Except.error (ExtractErr.fileNotFound p), []) := by
  unfold extract_cv_info
  rw [h]
  simp

/-- Witness for C8 at a concrete missing path. -/
theorem claim_C8_witness :
    extract_cv_info envC8 (str "cv_inp/missing.pdf") =
      (Except.error (ExtractErr.fileNotFound (str "cv_inp/missing.pdf")), []) :=
  claim_C8 envC8 (str "cv_inp/missing.pdf") rfl

/-- Claim C1: a run of the batch driver loops once over every retained file,
and the iteration for each such file either performs exactly one write, at
the file's derived output path, with no failure line — or performs no write
and prints exactly one failure line. Never neither, never both. -/
theorem claim_C1 (env : Env) (name : Str) (h : name ∈ cv_files env) :
    process_all_cvs env =
      Ev.printed (Msg.found (cv_files env).length) ::
        (cv_files env).flatMap (processOne env) ∧
    (((writesIn (processOne env name)).map Prod.fst = [outputPathFor env name] ∧
        errorsIn (processOne env name) = []) ∨
      (writesIn (processOne env name) = [] ∧
        (errorsIn (processOne env name)).length = 1)) := by
  refine ⟨process_all_of_ne env (List.ne_nil_of_mem h), ?_⟩
  have hobs := extract_obs env (osJoin env.input_folder name)
  rcases hx : extract_cv_info env (osJoin env.input_folder name) with ⟨r, evs⟩
  rw [hx] at hobs
  obtain ⟨hw, he, -, -⟩ := hobs
  simp only [writesIn, errorsIn] at hw he
  cases r with
  | ok j =>
      left
      rw [processOne_ok env name j evs hx]
      constructor
      · simp [writesIn, hw]
      · simp [errorsIn, he]
  | error e =>
      right
      rw [processOne_err env name e evs hx]
      constructor
      · simp [writesIn, hw]
      · simp [errorsIn, he]

/-- Witness for C1 on the concrete one-file environment. -/
theorem claim_C1_witness :
    process_all_cvs envC1 =
      Ev.printed (Msg.found (cv_files envC1).length) ::
        (cv_files envC1).flatMap (processOne envC1) ∧
    (((writesIn (processOne envC1 (str "a.pdf"))).map Prod.fst =
        [outputPathFor envC1 (str "a.pdf")] ∧
        errorsIn (processOne envC1 (str "a.pdf")) = []) ∨
      (writesIn (processOne envC1 (str "a.pdf")) = [] ∧
        (errorsIn (processOne envC1 (str "a.pdf"))).length = 1)) :=
  claim_C1 envC1 (str "a.pdf") (by decide)

/-- Claim C2: each retained file is attempted exactly once (one `Processing`
line, hence one `extract_cv_info` call, per file), yields at most one output
write, and the whole retained list is processed in order regardless of any
per-file outcome. -/
theorem claim_C2 (env : Env) (name : Str) (hnd : env.listing.Nodup)
    (h : name ∈ cv_files env) :
    processingIn (process_all_cvs env) = cv_files env ∧
    List.count name (processingIn (process_all_cvs env)) = 1 ∧
    (writesIn (processOne env name)).length ≤ 1 := by
  have hrun := processingIn_run env
  refine ⟨hrun, ?_, ?_⟩
  · rw [hrun]
    exact count_eq_one_of_nodup_mem (cv_files env) name
      (List.Nodup.filter _ hnd) h
  · have hobs := extract_obs env (osJoin env.input_folder name)
    rcases hx : extract_cv_info env (osJoin env.input_folder name) with ⟨r, evs⟩
    rw [hx] at hobs
    obtain ⟨hw, -, -, -⟩ := hobs
    simp only [writesIn] at hw
    cases r with
    | ok j =>
        rw [processOne_ok env name j evs hx]
        simp [writesIn, hw]
    | error e =>
        rw [processOne_err env name e evs hx]
        simp [writesIn, hw]

/-- Witness for C2 on the concrete one-file environment. -/
theorem claim_C2_witness :
    processingIn (process_all_cvs envC2) = cv_files envC2 ∧
    List.count (str "a.pdf") (processingIn (process_all_cvs envC2)) = 1 ∧
    (writesIn (processOne envC2 (str "a.pdf"))).length ≤ 1 :=
  claim_C2 envC2 (str "a.pdf") (by decide) (by decide)

/-- Claim C6: with the prompt file absent (and the listed files themselves
present on disk), every extraction attempt fails with the prompt-not-found
error having read only the input file — no inference call is ever made, no
output is written — while the batch still processes every file and
completes. -/
theorem claim_C6 (env : Env)
    (hp : env.pathExists env.prompt_file = false)
    (hex : ∀ name ∈ cv_files env,
      env.pathExists (osJoin env.input_folder name) = true) :
    (∀ name ∈ cv_files env,
      extract_cv_info env (osJoin env.input_folder name) =
        (Except.error (ExtractErr.promptNotFound env.prompt_file),
         [Ev.readFile (osJoin env.input_folder name)])) ∧
    apiCallsIn (process_all_cvs env) = [] ∧
    writesIn (process_all_cvs env) = [] ∧
    processingIn (process_all_cvs env) = cv_files env := by
  have hext : ∀ name ∈ cv_files env,
      extract_cv_info env (osJoin env.input_folder name) =
        (Except.error (ExtractErr.promptNotFound env.prompt_file),
         [Ev.readFile (osJoin env.input_folder name)]) :=
    fun name hn =>
      extract_no_prompt env (osJoin env.input_folder name) hp (hex name hn)
  have hpo : ∀ name ∈ cv_files env,
      processOne env name =
        Ev.printed (Msg.processing name) ::
          ([Ev.readFile (osJoin env.input_folder name)] ++
           [Ev.printed (Msg.error (ExtractErr.promptNotFound env.prompt_file))]) :=
    fun name hn => processOne_err env name _ _ (hext name hn)
  refine ⟨hext, ?_, ?_, processingIn_run env⟩
  · by_cases h : cv_files env = []
    · simp [process_all_cvs, h, apiCallsIn]
    · rw [process_all_of_ne env h]
      simp only [apiCallsIn, List.filterMap_cons]
      rw [filterMap_flatMap_ev, List.flatMap_eq_nil_iff]
      intro x hxm
      rw [hpo x hxm]
      simp
  · by_cases h : cv_files env = []
    · simp [process_all_cvs, h, writesIn]
    · rw [process_all_of_ne env h]
      simp only [writesIn, List.filterMap_cons]
      rw [filterMap_flatMap_ev, List.flatMap_eq_nil_iff]
      intro x hxm
      rw [hpo x hxm]
      simp

/-- Witness for C6 on the concrete missing-prompt environment. -/
theorem claim_C6_witness :
    apiCallsIn (process_all_cvs envC6) = [] ∧
    writesIn (process_all_cvs envC6) = [] ∧
    processingIn (process_all_cvs envC6) = cv_files envC6 :=
  ⟨(claim_C6 envC6 rfl (by decide)).2.1,
   (claim_C6 envC6 rfl (by decide)).2.2.1,
   (claim_C6 envC6 rfl (by decide)).2.2.2⟩

/-- Claim C9: a successful extraction makes its iteration write exactly one
output file, at `output_folder/<stem>_extracted.json`, whose content is the
record serialized by the Python `json.dump(·, indent=2, ensure_ascii=False)`
format (two-space indentation, non-ASCII kept literal). -/
theorem claim_C9 (env : Env) (name : Str) (j : Json) (evs : List Ev)
    (hx : extract_cv_info env (osJoin env.input_folder name) =
      (Except.ok j, evs)) :
    processOne env name =
      Ev.printed (Msg.processing name) ::
        (evs ++ [Ev.wrote (osJoin env.output_folder
                    (pathStem name ++ str "_extracted.json")) (pyJsonDump j),
                 Ev.printed (Msg.saved (osJoin env.output_folder
                    (pathStem name ++ str "_extracted.json")))]) ∧
    writesIn (processOne env name) =
      [(osJoin env.output_folder (pathStem name ++ str "_extracted.json"),
        pyJsonDump j)] := by
  have h1 := processOne_ok env name j evs hx
  refine ⟨h1, ?_⟩
  have hobs := (extract_obs env (osJoin env.input_folder name)).1
  rw [hx] at hobs
  simp only [writesIn] at hobs
  rw [h1]
  simp [writesIn, hobs, outputPathFor, output_filename]

/-- Witness for C9 on the spec's §8 scenario environment. -/
theorem claim_C9_witness :
    writesIn (processOne envC9 (str "resume.pdf")) =
      [(osJoin envC9.output_folder
          (pathStem (str "resume.pdf") ++ str "_extracted.json"),
        pyJsonDump jC9)] :=
  (claim_C9 envC9 (str "resume.pdf") jC9
    [Ev.readFile (osJoin envC9.input_folder (str "resume.pdf")), Ev.readPrompt,
     Ev.apiCall
       { model := str "gemini-2.0-flash",
         prompt := pyStrip envC9.promptRaw,
         mime_type := get_mime_type (osJoin envC9.input_folder (str "resume.pdf")),
         data := b64encode
           (envC9.fileBytes (osJoin envC9.input_folder (str "resume.pdf"))) }]
    rfl).2

/-- Claim C10: equal stems force equal derived output paths, so in a batch
holding `cv.pdf` and `cv.png` the two successful extractions write the same
path twice — the later write overwrites the earlier one, and the run ends
with fewer distinct output files (one) than successful extractions (two). -/
theorem claim_C10 :
    (∀ n1 n2 : Str, pathStem n1 = pathStem n2 →
      output_filename n1 = output_filename n2) ∧
    writesIn (process_all_cvs envC10) =
      [(str "cv_out/cv_extracted.json", pyJsonDump jC10a),
       (str "cv_out/cv_extracted.json", pyJsonDump jC10b)] ∧
    pyJsonDump jC10a ≠ pyJsonDump jC10b ∧
    finalFS (process_all_cvs envC10) (str "cv_out/cv_extracted.json") =
      some (pyJsonDump jC10b) ∧
    ((writesIn (process_all_cvs envC10)).map Prod.fst).dedup.length = 1 ∧
    (writesIn (process_all_cvs envC10)).length = 2 := by
  refine ⟨fun n1 n2 h => by unfold output_filename; rw [h], ?_, ?_, ?_, ?_, ?_⟩ <;>
    decide

/-- Witness for C10: the same-stem pair from the scenario. -/
theorem claim_C10_witness :
    output_filename (str "cv.pdf") = output_filename (str "cv.png") :=
  claim_C10.1 (str "cv.pdf") (str "cv.png") (by decide)
